import Mathlib

/-
Verification of the raiden node orchestration core against its
natural-language specification.

The embedding below is a shallow model of the two source files
`raiden/raiden_event_handler.py` and `raiden/raiden_service.py`.
Handlers are modelled as pure functions from an environment (the external
collaborators: chain client, router, transition function) and a service
state to a trace of effects (contract calls, transport sends, log lines,
completion-handle resolutions) together with an optional raised error,
mirroring Python exception propagation.
-/

namespace Raiden

/-- Byte strings are modelled as lists of naturals. -/
abbrev Bytes := List Nat

/-- A pending-transfer lock (raiden.messages.Lock): expiration height,
amount and secrethash. -/
structure Lock where
  expiration : Nat
  amount : Nat
  secrethash : Nat
deriving DecidableEq, Repr

/-- Modelled from the spec: `Lock.from_bytes` (raiden.messages, not under
src/) decodes a wire-encoded lock; we model the encoding as the list
`[expiration, amount, secrethash]`. -/
def Lock.from_bytes (bs : Bytes) : Lock :=
  { expiration := bs.headD 0
    amount := (bs.drop 1).headD 0
    secrethash := (bs.drop 2).headD 0 }

/-- An unlock proof carried by a ContractSendChannelWithdraw event; the
handler only inspects the encoded lock. -/
structure UnlockProof where
  merkle_proof : List Bytes
  lock_encoded : Bytes
  secret : Bytes
deriving DecidableEq, Repr

/-- A balance proof as carried by the contract-send events: the five
fields the on-chain operations consume. -/
structure BalanceProof where
  nonce : Nat
  transferred_amount : Nat
  locksroot : Bytes
  signature : Bytes
  message_hash : Bytes
deriving DecidableEq, Repr

/-- A wire message: either an instance of SignedMessage (signable,
carrying an optional signature) or some other non-signable message. -/
inductive Message where
  | signedMessage (payload : Nat) (signature : Option Nat)
  | plainMessage (payload : Nat)
deriving DecidableEq, Repr

/-- Modelled from the spec: `SignedMessage.sign` (raiden.messages, not
under src/) computes a valid signature over the message payload with the
node's private key; the concrete scheme is abstracted. -/
def message_signature (privkey payload : Nat) : Nat :=
  privkey + payload

/-- RaidenService.sign: raises ValueError when the message is not a
SignedMessage, otherwise signs it in place (modelled by returning the
signed message). -/
def sign (privkey : Nat) (m : Message) : Except String Message :=
  match m with
  | .signedMessage payload _ =>
      .ok (.signedMessage payload (some (message_signature privkey payload)))
  | .plainMessage _ => .error "not signable"

/-- The description of a user-initiated mediated transfer
(TransferDescriptionWithSecretState). -/
structure TransferDescription where
  identifier : Nat
  amount : Nat
  token_network_identifier : Nat
  initiator : Nat
  target : Nat
  secret : Nat
deriving DecidableEq, Repr

/-- A candidate route (RouteState): next-hop node address and channel. -/
structure RouteState where
  node_address : Nat
  channel_identifier : Nat
deriving DecidableEq, Repr

/-- The state changes the verified claims exercise: a new observed block
and the initiator-init of a mediated transfer. -/
inductive StateChange where
  | block (block_number : Nat)
  | actionInitInitiator (transfer : TransferDescription) (routes : List RouteState)
deriving DecidableEq, Repr

/-- The events produced by the transition function, mirroring the variant
list dispatched by on_raiden_event; `unknownEvent` stands for any type
that matches none of the recognized variants. -/
inductive Event where
  | sendLockedTransfer (recipient queue payload : Nat)
  | sendDirectTransfer (recipient queue payload : Nat)
  | sendRevealSecret (recipient queue payload : Nat)
  | sendBalanceProof (recipient queue payload : Nat)
  | sendSecretRequest (recipient queue payload : Nat)
  | sendRefundTransfer (recipient queue payload : Nat)
  | sendProcessed (recipient queue payload : Nat)
  | eventTransferSentSuccess (identifier : Nat)
  | eventTransferSentFailed (identifier : Nat) (reason : String)
  | eventUnlockFailed (secrethash : Nat) (reason : String)
  | contractSendChannelClose (channel_identifier : Nat) (balance_proof : Option BalanceProof)
  | contractSendChannelUpdateTransfer (channel_identifier : Nat) (balance_proof : Option BalanceProof)
  | contractSendChannelWithdraw (channel_identifier : Nat) (unlock_proofs : List UnlockProof)
  | contractSendChannelSettle (channel_identifier : Nat)
  | eventTransferReceivedSuccess (identifier : Nat)
  | eventUnlockSuccess (secrethash : Nat)
  | eventWithdrawFailed (secrethash : Nat)
  | eventWithdrawSuccess (secrethash : Nat)
  | unknownEvent (tag : String)
deriving DecidableEq, Repr

/-- UNEVENTFUL_EVENTS: the deliberately uneventful variants that
on_raiden_event recognizes and ignores. -/
def uneventful (ev : Event) : Bool :=
  match ev with
  | .eventTransferReceivedSuccess _ => true
  | .eventUnlockSuccess _ => true
  | .eventWithdrawFailed _ => true
  | .eventWithdrawSuccess _ => true
  | _ => false

/-- One observable side effect of the orchestration core: a transport
send, a contract-proxy resolution or call, a log line, a
completion-handle resolution, a WAL append-and-apply, a block-cache
update, or a chain-event poll. -/
inductive Effect where
  | sendAsync (recipient queue : Nat) (message : Message)
  | healthCheck (address : Nat)
  | nettingChannelResolved (channel_identifier : Nat)
  | channelClose (channel_identifier nonce transferred_amount : Nat)
      (locksroot message_hash signature : Bytes)
  | channelUpdateTransfer (channel_identifier nonce transferred_amount : Nat)
      (locksroot message_hash signature : Bytes)
  | channelWithdraw (channel_identifier : Nat) (proof : UnlockProof)
  | channelSettle (channel_identifier : Nat)
  | logError (message : String)
  | resolveHandle (handle : Nat) (outcome : Bool)
  | stateChangeLogged (state_change : StateChange) (block : Nat)
  | cacheUpdated (block : Nat)
  | polled
deriving DecidableEq, Repr

/-- The chain state held by the WAL state manager; only the current block
number is read by this core (views.block_number). -/
structure ChainState where
  block_number : Nat
deriving DecidableEq, Repr

/-- The external collaborators of the core: the transition function, the
router, the set of channels whose contract calls raise, the chain events
a poll would deliver, and the random draws. -/
structure Env where
  state_transition : ChainState → StateChange → ChainState × List Event
  get_best_routes : ChainState → Nat → Nat → Nat → Nat → Option Nat → List RouteState
  failing_channels : List Nat
  polled_events : List StateChange
  random_secret : Nat
  random_identifier : Nat

/-- The mutable parts of RaidenService that the verified claims touch:
the pending-transfer registry (identifier_to_results, keyed association
list of handle ids), the WAL's current chain state, the cached
_block_number, the next fresh completion-handle id, the node address and
private key. -/
structure RaidenState where
  identifier_to_results : List (Nat × List Nat)
  chain_state : ChainState
  cached_block : Option Nat
  next_handle : Nat
  address : Nat
  privkey : Nat
deriving DecidableEq, Repr

/-- views.block_number of the WAL's current state, as read by
RaidenService.get_block_number. -/
def get_block_number (st : RaidenState) : Nat :=
  st.chain_state.block_number

/-- Key lookup in the registry association list (dict access by key). -/
def kfind (k : Nat) : List (Nat × List Nat) → Option (List Nat)
  | [] => none
  | (k', v) :: rest => if k = k' then some v else kfind k rest

/-- defaultdict(list) item access: returns the stored list, inserting an
empty list for a missing key (as Python's defaultdict does). -/
def dd_getitem (m : List (Nat × List Nat)) (k : Nat) :
    List (Nat × List Nat) × List Nat :=
  match kfind k m with
  | some v => (m, v)
  | none => (m ++ [(k, [])], [])

/-- dict deletion of a key (del m[k]); the handlers only delete keys whose
presence the preceding defaultdict access ensured. -/
def dict_del (m : List (Nat × List Nat)) (k : Nat) : List (Nat × List Nat) :=
  m.filter (fun p => p.1 != k)

/-- A contract-proxy call: the invocation is always recorded, and it
raises exactly when the chain client fails for that channel. -/
def chain_call (env : Env) (channel_identifier : Nat) (eff : Effect) :
    List Effect × Option String :=
  ([eff],
   if env.failing_channels.contains channel_identifier then
     some "chain call failed"
   else none)

/-- Modelled from the spec: `message_from_sendevent` (raiden.messages,
not under src/) builds the wire message from the send-event's payload;
every send-event maps to a SignedMessage. -/
def message_from_sendevent (payload : Nat) : Message :=
  .signedMessage payload none

/-- handle_send_lockedtransfer: build the message, sign it, submit it to
the transport addressed to the event's recipient and queue. -/
def handle_send_lockedtransfer (st : RaidenState) (recipient queue payload : Nat) :
    List Effect × Option String :=
  match sign st.privkey (message_from_sendevent payload) with
  | .ok m => ([.sendAsync recipient queue m], none)
  | .error e => ([], some e)

/-- handle_send_directtransfer. -/
def handle_send_directtransfer (st : RaidenState) (recipient queue payload : Nat) :
    List Effect × Option String :=
  match sign st.privkey (message_from_sendevent payload) with
  | .ok m => ([.sendAsync recipient queue m], none)
  | .error e => ([], some e)

/-- handle_send_revealsecret. -/
def handle_send_revealsecret (st : RaidenState) (recipient queue payload : Nat) :
    List Effect × Option String :=
  match sign st.privkey (message_from_sendevent payload) with
  | .ok m => ([.sendAsync recipient queue m], none)
  | .error e => ([], some e)

/-- handle_send_balanceproof. -/
def handle_send_balanceproof (st : RaidenState) (recipient queue payload : Nat) :
    List Effect × Option String :=
  match sign st.privkey (message_from_sendevent payload) with
  | .ok m => ([.sendAsync recipient queue m], none)
  | .error e => ([], some e)

/-- handle_send_secretrequest. -/
def handle_send_secretrequest (st : RaidenState) (recipient queue payload : Nat) :
    List Effect × Option String :=
  match sign st.privkey (message_from_sendevent payload) with
  | .ok m => ([.sendAsync recipient queue m], none)
  | .error e => ([], some e)

/-- handle_send_refundtransfer. -/
def handle_send_refundtransfer (st : RaidenState) (recipient queue payload : Nat) :
    List Effect × Option String :=
  match sign st.privkey (message_from_sendevent payload) with
  | .ok m => ([.sendAsync recipient queue m], none)
  | .error e => ([], some e)

/-- handle_send_processed. -/
def handle_send_processed (st : RaidenState) (recipient queue payload : Nat) :
    List Effect × Option String :=
  match sign st.privkey (message_from_sendevent payload) with
  | .ok m => ([.sendAsync recipient queue m], none)
  | .error e => ([], some e)

/-- handle_transfersentsuccess: resolve every completion handle stored
under the event's identifier to True, then delete the registry entry. -/
def handle_transfersentsuccess (st : RaidenState) (identifier : Nat) :
    RaidenState × List Effect × Option String :=
  let g := dd_getitem st.identifier_to_results identifier
  ({ st with identifier_to_results := dict_del g.1 identifier },
   g.2.map (fun h => Effect.resolveHandle h true),
   none)

/-- handle_transfersentfailed: resolve every completion handle stored
under the event's identifier to False, then delete the registry entry. -/
def handle_transfersentfailed (st : RaidenState) (identifier : Nat) :
    RaidenState × List Effect × Option String :=
  let g := dd_getitem st.identifier_to_results identifier
  ({ st with identifier_to_results := dict_del g.1 identifier },
   g.2.map (fun h => Effect.resolveHandle h false),
   none)

/-- handle_unlockfailed: diagnostic only. -/
def handle_unlockfailed : List Effect × Option String :=
  ([.logError "UnlockFailed!"], none)

/-- handle_contract_channelclose: resolve the channel proxy by the
event's channel identifier and invoke close with the balance proof's
fields verbatim, or with zeroed/empty fields when the event carries no
balance proof. -/
def handle_contract_channelclose (env : Env) (channel_identifier : Nat)
    (balance_proof : Option BalanceProof) : List Effect × Option String :=
  let c := match balance_proof with
    | some bp =>
        chain_call env channel_identifier
          (.channelClose channel_identifier bp.nonce bp.transferred_amount
            bp.locksroot bp.message_hash bp.signature)
    | none =>
        chain_call env channel_identifier
          (.channelClose channel_identifier 0 0 [] [] [])
  (.nettingChannelResolved channel_identifier :: c.1, c.2)

/-- handle_contract_channelupdate: only when the event carries a balance
proof is the channel proxy resolved and update_transfer invoked. -/
def handle_contract_channelupdate (env : Env) (channel_identifier : Nat)
    (balance_proof : Option BalanceProof) : List Effect × Option String :=
  match balance_proof with
  | some bp =>
      let c := chain_call env channel_identifier
        (.channelUpdateTransfer channel_identifier bp.nonce bp.transferred_amount
          bp.locksroot bp.message_hash bp.signature)
      (.nettingChannelResolved channel_identifier :: c.1, c.2)
  | none => ([], none)

/-- The per-proof loop of handle_contract_channelwithdraw: a lock whose
expiration is below the current block is logged and dropped, any other
lock is submitted to the channel proxy's withdraw; a raised chain call
aborts the loop. -/
def withdraw_loop (env : Env) (channel_identifier block_number : Nat) :
    List UnlockProof → List Effect × Option String
  | [] => ([], none)
  | proof :: rest =>
      let lock := Lock.from_bytes proof.lock_encoded
      if lock.expiration < block_number then
        let r := withdraw_loop env channel_identifier block_number rest
        (.logError "Lock has expired!" :: r.1, r.2)
      else
        let c := chain_call env channel_identifier
          (.channelWithdraw channel_identifier proof)
        match c.2 with
        | some e => (c.1, some e)
        | none =>
            let r := withdraw_loop env channel_identifier block_number rest
            (c.1 ++ r.1, r.2)

/-- handle_contract_channelwithdraw: resolve the channel proxy, read the
current block number, then run the per-proof loop. -/
def handle_contract_channelwithdraw (env : Env) (st : RaidenState)
    (channel_identifier : Nat) (unlock_proofs : List UnlockProof) :
    List Effect × Option String :=
  let block_number := get_block_number st
  let r := withdraw_loop env channel_identifier block_number unlock_proofs
  (.nettingChannelResolved channel_identifier :: r.1, r.2)

/-- handle_contract_channelsettle: resolve the channel proxy and invoke
settle. -/
def handle_contract_channelsettle (env : Env) (channel_identifier : Nat) :
    List Effect × Option String :=
  let c := chain_call env channel_identifier (.channelSettle channel_identifier)
  (.nettingChannelResolved channel_identifier :: c.1, c.2)

/-- on_raiden_event: the dispatch table over all Event variants; the
deliberately uneventful variants are ignored and an unrecognized variant
is logged as an error and otherwise ignored. -/
def on_raiden_event (env : Env) (st : RaidenState) (ev : Event) :
    RaidenState × List Effect × Option String :=
  match ev with
  | .sendLockedTransfer r q p =>
      let r := handle_send_lockedtransfer st r q p
      (st, r.1, r.2)
  | .sendDirectTransfer r q p =>
      let r := handle_send_directtransfer st r q p
      (st, r.1, r.2)
  | .sendRevealSecret r q p =>
      let r := handle_send_revealsecret st r q p
      (st, r.1, r.2)
  | .sendBalanceProof r q p =>
      let r := handle_send_balanceproof st r q p
      (st, r.1, r.2)
  | .sendSecretRequest r q p =>
      let r := handle_send_secretrequest st r q p
      (st, r.1, r.2)
  | .sendRefundTransfer r q p =>
      let r := handle_send_refundtransfer st r q p
      (st, r.1, r.2)
  | .sendProcessed r q p =>
      let r := handle_send_processed st r q p
      (st, r.1, r.2)
  | .eventTransferSentSuccess identifier =>
      handle_transfersentsuccess st identifier
  | .eventTransferSentFailed identifier _ =>
      handle_transfersentfailed st identifier
  | .eventUnlockFailed _ _ =>
      let r := handle_unlockfailed
      (st, r.1, r.2)
  | .contractSendChannelClose cid bp =>
      let r := handle_contract_channelclose env cid bp
      (st, r.1, r.2)
  | .contractSendChannelUpdateTransfer cid bp =>
      let r := handle_contract_channelupdate env cid bp
      (st, r.1, r.2)
  | .contractSendChannelWithdraw cid proofs =>
      let r := handle_contract_channelwithdraw env st cid proofs
      (st, r.1, r.2)
  | .contractSendChannelSettle cid =>
      let r := handle_contract_channelsettle env cid
      (st, r.1, r.2)
  | .eventTransferReceivedSuccess _ => (st, [], none)
  | .eventUnlockSuccess _ => (st, [], none)
  | .eventWithdrawFailed _ => (st, [], none)
  | .eventWithdrawSuccess _ => (st, [], none)
  | .unknownEvent tag => (st, [.logError ("Unknown event " ++ tag)], none)

/-- The event loop of handle_state_change: each event of the batch is
dispatched in order, and a raised error propagates, aborting the rest of
the batch (the Python for-loop has no exception guard). -/
def dispatch_events (env : Env) (st : RaidenState) :
    List Event → RaidenState × List Effect × Option String
  | [] => (st, [], none)
  | ev :: rest =>
      let r := on_raiden_event env st ev
      match r.2.2 with
      | some e => (r.1, r.2.1, some e)
      | none =>
          let r2 := dispatch_events env r.1 rest
          (r2.1, r.2.1 ++ r2.2.1, r2.2.2)

/-- handle_state_change: log-and-apply the state change through the WAL
(recorded as one stateChangeLogged effect, the append and the transition
being atomic), then dispatch every resulting event. A missing block
number defaults to the current one. -/
def handle_state_change (env : Env) (st : RaidenState) (sc : StateChange)
    (block : Option Nat) : RaidenState × List Effect × Option String :=
  let block_number := block.getD (get_block_number st)
  let (chain1, events) := env.state_transition st.chain_state sc
  let st1 := { st with chain_state := chain1 }
  let d := dispatch_events env st1 events
  (d.1, .stateChangeLogged sc block_number :: d.2.1, d.2.2)

/-- set_block_number: apply the new-block state change (dispatching its
events), and only after that completes update the cached _block_number;
a raised error skips the cache update. -/
def set_block_number (env : Env) (st : RaidenState) (block_number : Nat) :
    RaidenState × List Effect × Option String :=
  let r := handle_state_change env st (.block block_number) (some block_number)
  match r.2.2 with
  | some e => (r.1, r.2.1, some e)
  | none =>
      ({ r.1 with cached_block := some block_number },
       r.2.1 ++ [.cacheUpdated block_number],
       none)

/-- The state-change loop of poll_blockchain_events: each polled chain
event is converted to a state change and applied in order, a raised
error aborting the rest. -/
def apply_state_changes (env : Env) (st : RaidenState) :
    List StateChange → RaidenState × List Effect × Option String
  | [] => (st, [], none)
  | sc :: rest =>
      let r := handle_state_change env st sc none
      match r.2.2 with
      | some e => (r.1, r.2.1, some e)
      | none =>
          let r2 := apply_state_changes env r.1 rest
          (r2.1, r.2.1 ++ r2.2.1, r2.2.2)

/-- Modelled from the spec: poll_blockchain_events together with
on_blockchain_event (raiden.blockchain_events_handler, not under src/):
under the poll lock, each polled chain event is converted into a state
change and applied; the poll itself is recorded as one effect. -/
def poll_blockchain_events (env : Env) (st : RaidenState) :
    RaidenState × List Effect × Option String :=
  let a := apply_state_changes env st env.polled_events
  (a.1, .polled :: a.2.1, a.2.2)

/-- The two per-block callbacks RaidenService.start registers with the
alarm task. -/
inductive Callback where
  | pollBlockchainEvents
  | setBlockNumber
deriving DecidableEq, Repr

/-- Modelled from the spec: AlarmTask (raiden.tasks, not under src/)
keeps the registered per-block callbacks and runs them once per new
block in registration order. -/
structure AlarmTask where
  callbacks : List Callback
deriving DecidableEq, Repr

/-- AlarmTask.register_callback appends the callback to the list run on
each tick. -/
def register_callback (alarm : AlarmTask) (cb : Callback) : AlarmTask :=
  { callbacks := alarm.callbacks ++ [cb] }

/-- The alarm task as configured by RaidenService.start: the
chain-event poll callback is registered first, the block-number callback
second. -/
def start_alarm : AlarmTask :=
  register_callback (register_callback { callbacks := [] } .pollBlockchainEvents)
    .setBlockNumber

/-- Run one registered callback for the tick's block number. -/
def run_callback (env : Env) (st : RaidenState) (block_number : Nat) :
    Callback → RaidenState × List Effect × Option String
  | .pollBlockchainEvents => poll_blockchain_events env st
  | .setBlockNumber => set_block_number env st block_number

/-- Run the registered callbacks in order, a raised error aborting the
rest. -/
def run_callbacks (env : Env) (st : RaidenState) (block_number : Nat) :
    List Callback → RaidenState × List Effect × Option String
  | [] => (st, [], none)
  | cb :: rest =>
      let r := run_callback env st block_number cb
      match r.2.2 with
      | some e => (r.1, r.2.1, some e)
      | none =>
          let r2 := run_callbacks env r.1 block_number rest
          (r2.1, r.2.1 ++ r2.2.1, r2.2.2)

/-- One alarm tick for a newly observed block: run the callbacks
registered by RaidenService.start, in registration order. -/
def alarm_tick (env : Env) (st : RaidenState) (block_number : Nat) :
    RaidenState × List Effect × Option String :=
  run_callbacks env st block_number start_alarm.callbacks

/-- initiator_init: look up the candidate routes with the router and
build the initiator-init state change (the routes may be empty). -/
def initiator_init (env : Env) (st : RaidenState)
    (transfer_identifier transfer_amount transfer_secret
      token_network_identifier target_address : Nat) : StateChange :=
  let routes := env.get_best_routes st.chain_state token_network_identifier
    st.address target_address transfer_amount none
  .actionInitInitiator
    { identifier := transfer_identifier
      amount := transfer_amount
      token_network_identifier := token_network_identifier
      initiator := st.address
      target := target_address
      secret := transfer_secret }
    routes

/-- start_mediated_transfer: health-check the target, draw a default
identifier when none is given, assert the identifier is unregistered,
register a fresh completion handle under it, build the initiator-init
state change and submit it through the state manager even when there are
no routes; returns the completion handle. -/
def start_mediated_transfer (env : Env) (st : RaidenState)
    (token_network_identifier amount target : Nat) (identifier : Option Nat) :
    RaidenState × List Effect × Option String × Option Nat :=
  let ident := identifier.getD env.random_identifier
  if (kfind ident st.identifier_to_results).isSome then
    (st, [.healthCheck target], some "AssertionError: identifier already registered", none)
  else
    let handle := st.next_handle
    let st1 := { st with
      next_handle := handle + 1
      identifier_to_results := st.identifier_to_results ++ [(ident, [handle])] }
    let sc := initiator_init env st1 ident amount env.random_secret
      token_network_identifier target
    let r := handle_state_change env st1 sc none
    (r.1, .healthCheck target :: r.2.1, r.2.2,
     match r.2.2 with
     | some _ => none
     | none => some handle)

/-- Modelled from the spec: node.state_transition (raiden.transfer.node,
not under src/), restricted to the state changes the claims exercise. A
new-block state change updates the state's current block number; an
initiator-init with zero candidate routes still yields the state
unchanged and a transfer-sent-failed event for the identifier, while one
with at least one route yields a send-locked-transfer to the first hop. -/
def spec_state_transition (cs : ChainState) (sc : StateChange) :
    ChainState × List Event :=
  match sc with
  | .block n => ({ block_number := n }, [])
  | .actionInitInitiator transfer routes =>
      match routes with
      | [] => (cs, [.eventTransferSentFailed transfer.identifier "no route available"])
      | route :: _ =>
          (cs, [.sendLockedTransfer route.node_address route.channel_identifier
            transfer.amount])

/-- A Python value as tested by the private-key precondition: either a
bytes object or a value of some other type. -/
inductive PyValue where
  | bytes (bs : List Nat)
  | notBytes (tag : String)
deriving DecidableEq, Repr

/-- Holds exactly when the value is a bytes object of length 32. -/
def isBytes32 (v : PyValue) : Bool :=
  match v with
  | .bytes bs => bs.length == 32
  | .notBytes _ => false

/-- The validation prefix of RaidenService.__init__: raise ValueError
when the private key is not a 32-byte bytes value, then raise ValueError
when the configured settle timeout is below the minimum or above the
maximum (the two bounds come from raiden.constants, not under src/, and
are parameters here). -/
def RaidenService_init_checks (private_key_bin : PyValue)
    (settle_timeout timeout_min timeout_max : Nat) : Except String Unit :=
  if !isBytes32 private_key_bin then
    .error "invalid private_key"
  else if settle_timeout < timeout_min || timeout_max < settle_timeout then
    .error "settle_timeout must be in range"
  else
    .ok ()

/-- A concrete environment: the spec-modelled transition function, a
router that finds no routes, no failing channels and nothing to poll. -/
def env0 : Env :=
  { state_transition := spec_state_transition
    get_best_routes := fun _ _ _ _ _ _ => []
    failing_channels := []
    polled_events := []
    random_secret := 11
    random_identifier := 99 }

/-- A concrete service state: empty registry, chain state at block 0. -/
def st0 : RaidenState :=
  { identifier_to_results := []
    chain_state := { block_number := 0 }
    cached_block := none
    next_handle := 0
    address := 21
    privkey := 1 }

/-- Looking a key up after dict deletion of that key yields nothing. -/
theorem kfind_dict_del (m : List (Nat × List Nat)) (k : Nat) :
    kfind k (dict_del m k) = none := by
  induction m with
  | nil => rfl
  | cons a t ih =>
      obtain ⟨a1, a2⟩ := a
      by_cases h : a1 = k
      · simpa [dict_del, List.filter_cons, h] using ih
      · have hbne : (a1 != k) = true := by simpa [bne_iff_ne] using h
        have hne : k ≠ a1 := Ne.symm h
        simpa [dict_del, List.filter_cons, hbne, kfind, hne] using ih

/-- Dict deletion leaves the entries of every other key alone. -/
theorem kfind_dict_del_ne (m : List (Nat × List Nat)) (k k' : Nat)
    (h : k' ≠ k) : kfind k' (dict_del m k) = kfind k' m := by
  induction m with
  | nil => rfl
  | cons a t ih =>
      obtain ⟨a1, a2⟩ := a
      by_cases ha : a1 = k
      · have hk' : k' ≠ a1 := fun hc => h (hc.trans ha)
        simpa [dict_del, List.filter_cons, ha, kfind, hk', h] using ih
      · have hbne : (a1 != k) = true := by simpa [bne_iff_ne] using ha
        by_cases hk' : k' = a1
        · simp [dict_del, List.filter_cons, hbne, kfind, hk']
        · simpa [dict_del, List.filter_cons, hbne, kfind, hk'] using ih

/-- Looking up a key that the first list lacks falls through to the
second list. -/
theorem kfind_append_of_none (m l : List (Nat × List Nat)) (k : Nat)
    (h : kfind k m = none) : kfind k (m ++ l) = kfind k l := by
  induction m with
  | nil => rfl
  | cons a t ih =>
      obtain ⟨a1, a2⟩ := a
      by_cases hk : k = a1
      · simp [kfind, hk] at h
      · simp only [kfind, if_neg hk] at h
        simpa [kfind, hk] using ih h

/-- The per-proof withdraw submissions recorded in an effect trace. -/
def withdrawnProofs (effs : List Effect) : List UnlockProof :=
  effs.filterMap fun e =>
    match e with
    | .channelWithdraw _ proof => some proof
    | _ => none

/-- C4: on_raiden_event is total over the Event variants: an event whose
type is not among the recognized ones is logged as an error, causes no
other side effect, leaves the service state unchanged and returns without
raising; the deliberately uneventful variants are recognized and silently
ignored. -/
theorem unknown_event_logged_and_ignored :
    ∀ (env : Env) (st : RaidenState) (tag : String),
      on_raiden_event env st (.unknownEvent tag)
        = (st, [.logError ("Unknown event " ++ tag)], none)
      ∧ (∀ i, on_raiden_event env st (.eventTransferReceivedSuccess i) = (st, [], none))
      ∧ (∀ s, on_raiden_event env st (.eventUnlockSuccess s) = (st, [], none))
      ∧ (∀ s, on_raiden_event env st (.eventWithdrawFailed s) = (st, [], none))
      ∧ (∀ s, on_raiden_event env st (.eventWithdrawSuccess s) = (st, [], none)) :=
  fun _ _ _ =>
    ⟨rfl, fun _ => rfl, fun _ => rfl, fun _ => rfl, fun _ => rfl⟩

/-- C6: channel close resolves the proxy by the event's channel
identifier and invokes close with the balance proof's nonce, transferred
amount, locksroot, message hash and signature verbatim, or with zeroed
and empty fields when the event carries no balance proof. -/
theorem channelclose_fields_verbatim_or_zeroed :
    ∀ (env : Env) (cid : Nat),
      (∀ bp : BalanceProof,
        (handle_contract_channelclose env cid (some bp)).1
          = [.nettingChannelResolved cid,
             .channelClose cid bp.nonce bp.transferred_amount
               bp.locksroot bp.message_hash bp.signature])
      ∧ (handle_contract_channelclose env cid none).1
          = [.nettingChannelResolved cid, .channelClose cid 0 0 [] [] []] :=
  fun _ _ => ⟨fun _ => rfl, rfl⟩

/-- C10: an update-transfer event without a balance proof performs no
contract interaction at all — no proxy resolution, no update_transfer
call, no state change and no error — unlike channel close, which in the
same situation resolves the proxy and calls close with zeroed fields. -/
theorem update_without_proof_does_nothing :
    ∀ (env : Env) (st : RaidenState) (cid : Nat),
      on_raiden_event env st (.contractSendChannelUpdateTransfer cid none)
        = (st, [], none)
      ∧ handle_contract_channelupdate env cid none = ([], none)
      ∧ (handle_contract_channelclose env cid none).1
          = [.nettingChannelResolved cid, .channelClose cid 0 0 [] [] []] :=
  fun _ _ _ => ⟨rfl, rfl, rfl⟩

/-- C7: configuration and precondition violations fail at the call site:
construction raises when the private key is not a 32-byte bytes value,
or when the settle timeout is below the minimum or above the maximum,
and signing raises when the message is not a signable message. -/
theorem precondition_violations_raise
    (pv : PyValue) (to1 tmin1 tmax1 to2 tmin2 tmax2 k p : Nat) (bs : List Nat)
    (hpv : isBytes32 pv = false)
    (hbs : bs.length = 32)
    (hto : to2 < tmin2 ∨ tmax2 < to2) :
    (∃ e, RaidenService_init_checks pv to1 tmin1 tmax1 = .error e)
    ∧ (∃ e, RaidenService_init_checks (.bytes bs) to2 tmin2 tmax2 = .error e)
    ∧ (∃ e, sign k (.plainMessage p) = .error e) := by
  refine ⟨⟨"invalid private_key", ?_⟩,
          ⟨"settle_timeout must be in range", ?_⟩,
          ⟨"not signable", rfl⟩⟩
  · simp [RaidenService_init_checks, hpv]
  · have hkey : isBytes32 (.bytes bs) = true := by simp [isBytes32, hbs]
    rcases hto with h | h <;> simp [RaidenService_init_checks, hkey, h]

/-- Witness for C7 at concrete inputs: a non-bytes key, a 32-byte key
with a settle timeout below the minimum, and a non-signable message. -/
theorem precondition_violations_raise_witness :
    isBytes32 (.notBytes "int") = false
    ∧ (List.replicate 32 0).length = 32
    ∧ (3 < 6 ∨ 2700 < 3)
    ∧ ((∃ e, RaidenService_init_checks (.notBytes "int") 20 6 2700 = .error e)
       ∧ (∃ e, RaidenService_init_checks (.bytes (List.replicate 32 0)) 3 6 2700 = .error e)
       ∧ (∃ e, sign 1 (.plainMessage 0) = .error e)) :=
  ⟨by decide, by decide, Or.inl (by decide),
   precondition_violations_raise (.notBytes "int") 20 6 2700 3 6 2700 1 0
     (List.replicate 32 0) (by decide) (by decide) (Or.inl (by decide))⟩

/-- C2: processing one terminal event for a registered identifier
resolves every handle registered under it exactly once — to True on
transfer-sent-success and to False on transfer-sent-failed — raises
nothing, and removes the registry entry; and registering under an
already-registered identifier fails with an assertion error and leaves
the service state unchanged. -/
theorem terminal_event_resolves_exactly_once
    (env : Env) (st : RaidenState) (identifier : Nat) (hs : List Nat)
    (hreg : kfind identifier st.identifier_to_results = some hs) :
    ((handle_transfersentsuccess st identifier).2.1
        = hs.map (fun h => Effect.resolveHandle h true)
      ∧ (handle_transfersentsuccess st identifier).2.2 = none
      ∧ kfind identifier
          (handle_transfersentsuccess st identifier).1.identifier_to_results = none)
    ∧ ((handle_transfersentfailed st identifier).2.1
        = hs.map (fun h => Effect.resolveHandle h false)
      ∧ (handle_transfersentfailed st identifier).2.2 = none
      ∧ kfind identifier
          (handle_transfersentfailed st identifier).1.identifier_to_results = none)
    ∧ (∀ tn amount target,
        (start_mediated_transfer env st tn amount target (some identifier)).2.2.1
          = some "AssertionError: identifier already registered"
        ∧ (start_mediated_transfer env st tn amount target (some identifier)).1 = st) := by
  have hsome : (kfind identifier st.identifier_to_results).isSome = true := by
    simp [hreg]
  refine ⟨?_, ?_, ?_⟩
  · simp [handle_transfersentsuccess, dd_getitem, hreg, kfind_dict_del]
  · simp [handle_transfersentfailed, dd_getitem, hreg, kfind_dict_del]
  · intro tn amount target
    constructor <;> simp [start_mediated_transfer, hsome]

/-- A service state whose registry holds one handle under identifier 5. -/
def stReg : RaidenState :=
  { st0 with identifier_to_results := [(5, [0])] }

/-- Witness for C2 at a concrete registry with identifier 5 mapped to the
single handle 0. -/
theorem terminal_event_resolves_exactly_once_witness :
    kfind 5 stReg.identifier_to_results = some [0]
    ∧ (((handle_transfersentsuccess stReg 5).2.1 = [.resolveHandle 0 true]
        ∧ (handle_transfersentsuccess stReg 5).2.2 = none
        ∧ kfind 5 (handle_transfersentsuccess stReg 5).1.identifier_to_results = none)
      ∧ ((handle_transfersentfailed stReg 5).2.1 = [.resolveHandle 0 false]
        ∧ (handle_transfersentfailed stReg 5).2.2 = none
        ∧ kfind 5 (handle_transfersentfailed stReg 5).1.identifier_to_results = none)
      ∧ (∀ tn amount target,
          (start_mediated_transfer env0 stReg tn amount target (some 5)).2.2.1
            = some "AssertionError: identifier already registered"
          ∧ (start_mediated_transfer env0 stReg tn amount target (some 5)).1 = stReg)) :=
  ⟨rfl, terminal_event_resolves_exactly_once env0 stReg 5 [0] rfl⟩

/-- C9: a terminal event for an identifier with no registered handles
raises nothing, resolves nothing, and leaves the registry without an
entry for that identifier: the defaultdict maps the unknown identifier
to an empty list, which is iterated vacuously and then deleted. -/
theorem terminal_event_unregistered_identifier_safe
    (st : RaidenState) (identifier : Nat)
    (h : kfind identifier st.identifier_to_results = none) :
    ((handle_transfersentsuccess st identifier).2 = ([], none)
      ∧ kfind identifier
          (handle_transfersentsuccess st identifier).1.identifier_to_results = none)
    ∧ ((handle_transfersentfailed st identifier).2 = ([], none)
      ∧ kfind identifier
          (handle_transfersentfailed st identifier).1.identifier_to_results = none) := by
  constructor
  · constructor
    · simp [handle_transfersentsuccess, dd_getitem, h]
    · simp [handle_transfersentsuccess, dd_getitem, h, kfind_dict_del]
  · constructor
    · simp [handle_transfersentfailed, dd_getitem, h]
    · simp [handle_transfersentfailed, dd_getitem, h, kfind_dict_del]

/-- Witness for C9 at the empty registry and identifier 7. -/
theorem terminal_event_unregistered_identifier_safe_witness :
    kfind 7 st0.identifier_to_results = none
    ∧ (((handle_transfersentsuccess st0 7).2 = ([], none)
        ∧ kfind 7 (handle_transfersentsuccess st0 7).1.identifier_to_results = none)
      ∧ ((handle_transfersentfailed st0 7).2 = ([], none)
        ∧ kfind 7 (handle_transfersentfailed st0 7).1.identifier_to_results = none)) :=
  ⟨rfl, terminal_event_unregistered_identifier_safe st0 7 rfl⟩

/-- An environment in which contract calls on channel 1 raise. -/
def env3 : Env :=
  { env0 with failing_channels := [1] }

/-- A batch of two events produced by one state change: a close on the
failing channel 1 followed by a settle on channel 2. -/
def c3_batch : List Event :=
  [.contractSendChannelClose 1 none, .contractSendChannelSettle 2]

/-- C3: the dispatch loop of handle_state_change does not attempt the
remaining events of a batch once one event's handler raises: with the
close call on channel 1 raising, the settle event for channel 2 is never
dispatched — its proxy is never resolved and settle is never invoked —
and the error propagates out of the loop. -/
theorem dispatch_failure_aborts_batch :
    (dispatch_events env3 st0 c3_batch).2.2 = some "chain call failed"
    ∧ (dispatch_events env3 st0 c3_batch).2.1
        = [.nettingChannelResolved 1, .channelClose 1 0 0 [] [] []]
    ∧ Effect.nettingChannelResolved 2 ∉ (dispatch_events env3 st0 c3_batch).2.1
    ∧ Effect.channelSettle 2 ∉ (dispatch_events env3 st0 c3_batch).2.1 :=
  ⟨rfl, rfl, by decide, by decide⟩

/-- The per-proof loop of the withdraw handler, when no contract call
raises, submits exactly the proofs whose lock expiration is at or above
the current block, logs one diagnostic per proof whose expiration is
strictly below it, and raises nothing. -/
theorem withdraw_loop_boundary (env : Env) (cid b : Nat)
    (proofs : List UnlockProof)
    (hok : env.failing_channels.contains cid = false) :
    withdrawnProofs (withdraw_loop env cid b proofs).1
      = proofs.filter
          (fun p => decide (b ≤ (Lock.from_bytes p.lock_encoded).expiration))
    ∧ (withdraw_loop env cid b proofs).1.count (.logError "Lock has expired!")
      = (proofs.filter
          (fun p => decide ((Lock.from_bytes p.lock_encoded).expiration < b))).length
    ∧ (withdraw_loop env cid b proofs).2 = none := by
  have hmem : cid ∉ env.failing_channels := by simpa using hok
  induction proofs with
  | nil => exact ⟨rfl, rfl, rfl⟩
  | cons p rest ih =>
      obtain ⟨ih1, ih2, ih3⟩ := ih
      by_cases h : (Lock.from_bytes p.lock_encoded).expiration < b
      · have hnot : ¬ b ≤ (Lock.from_bytes p.lock_encoded).expiration :=
          Nat.not_le.mpr h
        refine ⟨?_, ?_, ?_⟩
        · simpa [withdraw_loop, h, withdrawnProofs, List.filter_cons, hnot]
            using ih1
        · simpa [withdraw_loop, h, List.filter_cons, hnot, List.count_cons]
            using ih2
        · simpa [withdraw_loop, h] using ih3
      · have hle : b ≤ (Lock.from_bytes p.lock_encoded).expiration :=
          Nat.le_of_not_lt h
        refine ⟨?_, ?_, ?_⟩
        · simpa [withdraw_loop, h, chain_call, hmem, withdrawnProofs,
            List.filter_cons, hle] using ih1
        · simpa [withdraw_loop, h, chain_call, hmem, List.filter_cons,
            Nat.not_lt.mpr hle, List.count_cons] using ih2
        · simpa [withdraw_loop, h, chain_call, hmem] using ih3

/-- C1 (amended): given a withdraw event with unlock proofs and current
block b, and no raising contract call, exactly the locks with expiration
at or above b are submitted to the channel proxy's withdraw, and every
lock with expiration strictly below b is dropped with one diagnostic log
and never submitted (the source drops a lock only when its expiration is
strictly below the current block, so a lock expiring exactly at b is
still submitted). -/
theorem withdraw_expired_lock_boundary (env : Env) (st : RaidenState)
    (cid : Nat) (proofs : List UnlockProof)
    (hok : env.failing_channels.contains cid = false) :
    withdrawnProofs (handle_contract_channelwithdraw env st cid proofs).1
      = proofs.filter
          (fun p => decide (get_block_number st ≤ (Lock.from_bytes p.lock_encoded).expiration))
    ∧ (handle_contract_channelwithdraw env st cid proofs).1.count
        (.logError "Lock has expired!")
      = (proofs.filter
          (fun p => decide ((Lock.from_bytes p.lock_encoded).expiration < get_block_number st))).length
    ∧ (handle_contract_channelwithdraw env st cid proofs).2 = none := by
  obtain ⟨h1, h2, h3⟩ := withdraw_loop_boundary env cid (get_block_number st) proofs hok
  refine ⟨?_, ?_, ?_⟩
  · simpa [handle_contract_channelwithdraw, withdrawnProofs] using h1
  · simpa [handle_contract_channelwithdraw, List.count_cons] using h2
  · simpa [handle_contract_channelwithdraw] using h3

/-- An unlock proof whose lock expires exactly at block 5. -/
def cex_proof : UnlockProof :=
  { merkle_proof := [], lock_encoded := [5, 1, 2], secret := [] }

/-- A service state whose current observed block number is 5. -/
def cex_st : RaidenState :=
  { st0 with chain_state := { block_number := 5 } }

/-- Counterexample to C1 as stated: a lock whose expiration equals the
current observed block number (at, hence not strictly greater) is
nevertheless submitted to withdraw and no diagnostic is logged — the
code drops a lock only when its expiration is strictly below the current
block. -/
theorem withdraw_at_boundary_submitted :
    (Lock.from_bytes cex_proof.lock_encoded).expiration = get_block_number cex_st
    ∧ (handle_contract_channelwithdraw env0 cex_st 9 [cex_proof]).1
        = [.nettingChannelResolved 9, .channelWithdraw 9 cex_proof]
    ∧ Effect.channelWithdraw 9 cex_proof
        ∈ (handle_contract_channelwithdraw env0 cex_st 9 [cex_proof]).1
    ∧ Effect.logError "Lock has expired!"
        ∉ (handle_contract_channelwithdraw env0 cex_st 9 [cex_proof]).1 :=
  ⟨rfl, rfl, by decide, by decide⟩

/-- Witness for the amended C1 at a mixed batch: locks expiring at
heights 4, 5 and 6 while the current block is 5 — the proofs expiring at
5 and 6 are submitted and the one at 4 is dropped with one diagnostic. -/
theorem withdraw_expired_lock_boundary_witness :
    (env0.failing_channels.contains 9 = false)
    ∧ withdrawnProofs
        (handle_contract_channelwithdraw env0 cex_st 9
          [{ merkle_proof := [], lock_encoded := [4], secret := [] },
           cex_proof,
           { merkle_proof := [], lock_encoded := [6], secret := [] }]).1
        = [cex_proof, { merkle_proof := [], lock_encoded := [6], secret := [] }]
    ∧ (handle_contract_channelwithdraw env0 cex_st 9
          [{ merkle_proof := [], lock_encoded := [4], secret := [] },
           cex_proof,
           { merkle_proof := [], lock_encoded := [6], secret := [] }]).1.count
        (.logError "Lock has expired!") = 1 := by
  have h := withdraw_expired_lock_boundary env0 cex_st 9
    [{ merkle_proof := [], lock_encoded := [4], secret := [] },
     cex_proof,
     { merkle_proof := [], lock_encoded := [6], secret := [] }] (by decide)
  exact ⟨by decide, by rw [h.1]; decide, by rw [h.2.1]; decide⟩

/-- Holds of the effect recording the application of a new-block state
change. -/
def isNewBlockLogged (e : Effect) : Bool :=
  match e with
  | .stateChangeLogged (.block _) _ => true
  | _ => false

/-- Holds of the effect recording a chain-event poll. -/
def isPolled (e : Effect) : Bool :=
  match e with
  | .polled => true
  | _ => false

/-- Counterexample to C5 as stated: on a tick the callbacks run in
registration order and RaidenService.start registers the chain-event
poll before the block-number callback, so the poll runs before the
new-block state change is applied — not after the cache update as the
claim requires. -/
theorem alarm_tick_poll_runs_first :
    (alarm_tick env0 st0 1).2.1
      = [.polled, .stateChangeLogged (.block 1) 1, .cacheUpdated 1]
    ∧ ¬ ((alarm_tick env0 st0 1).2.1.findIdx isNewBlockLogged
          < (alarm_tick env0 st0 1).2.1.findIdx isPolled) :=
  ⟨rfl, by decide⟩

/-- C5 (amended): on every alarm tick the registered callbacks run in
registration order, and start registers the chain-event poll before the
block-number callback; so the poll runs first, then the new-block state
change is applied through the state manager with its events dispatched,
and only after that application completes is the cached latest-known
block number updated, as the last action of the tick. -/
theorem alarm_tick_order (env : Env) (st : RaidenState) (b : Nat)
    (hpoll : env.polled_events = [])
    (hok : (handle_state_change env st (.block b) (some b)).2.2 = none) :
    (∃ effs,
      (handle_state_change env st (.block b) (some b)).2.1
        = Effect.stateChangeLogged (.block b) b :: effs
      ∧ (alarm_tick env st b).2.1
        = .polled :: Effect.stateChangeLogged (.block b) b :: effs ++ [.cacheUpdated b])
    ∧ (alarm_tick env st b).1.cached_block = some b
    ∧ (alarm_tick env st b).2.2 = none := by
  have hok2 : (dispatch_events env
      { st with chain_state := (env.state_transition st.chain_state (.block b)).1 }
      (env.state_transition st.chain_state (.block b)).2).2.2 = none := hok
  refine ⟨⟨(dispatch_events env
      { st with chain_state := (env.state_transition st.chain_state (.block b)).1 }
      (env.state_transition st.chain_state (.block b)).2).2.1, rfl, ?_⟩, ?_, ?_⟩ <;>
    simp [alarm_tick, start_alarm, register_callback, run_callbacks, run_callback,
      poll_blockchain_events, apply_state_changes, hpoll, set_block_number, hok2,
      handle_state_change]

/-- Witness for the amended C5 at a concrete tick from block 0 to 1. -/
theorem alarm_tick_order_witness :
    env0.polled_events = []
    ∧ (handle_state_change env0 st0 (.block 1) (some 1)).2.2 = none
    ∧ ((∃ effs,
        (handle_state_change env0 st0 (.block 1) (some 1)).2.1
          = Effect.stateChangeLogged (.block 1) 1 :: effs
        ∧ (alarm_tick env0 st0 1).2.1
          = .polled :: Effect.stateChangeLogged (.block 1) 1 :: effs ++ [.cacheUpdated 1])
      ∧ (alarm_tick env0 st0 1).1.cached_block = some 1
      ∧ (alarm_tick env0 st0 1).2.2 = none) :=
  ⟨rfl, rfl, alarm_tick_order env0 st0 1 rfl rfl⟩

/-- C8: a mediated-transfer initiation whose route lookup returns zero
candidate routes still submits the initiator-init state change through
the state manager — creating the durable log entry rather than being
rejected before logging — and the registered completion handle is
resolved to failure through the normal transfer-sent-failed event path,
after which the registry holds no entry for the identifier. -/
theorem no_route_initiation_logged_then_failed
    (env : Env) (st : RaidenState) (tn amount target identifier : Nat)
    (hT : env.state_transition = spec_state_transition)
    (hR : ∀ cs t a b c d, env.get_best_routes cs t a b c d = [])
    (hid : kfind identifier st.identifier_to_results = none) :
    (start_mediated_transfer env st tn amount target (some identifier)).2.1
      = [.healthCheck target,
         .stateChangeLogged
           (.actionInitInitiator
             { identifier := identifier, amount := amount,
               token_network_identifier := tn, initiator := st.address,
               target := target, secret := env.random_secret } [])
           (get_block_number st),
         .resolveHandle st.next_handle false]
    ∧ (start_mediated_transfer env st tn amount target (some identifier)).2.2.1 = none
    ∧ (start_mediated_transfer env st tn amount target (some identifier)).2.2.2
        = some st.next_handle
    ∧ kfind identifier
        (start_mediated_transfer env st tn amount target (some identifier)).1.identifier_to_results
      = none := by
  have hnone : (kfind identifier st.identifier_to_results).isSome = false := by
    simp [hid]
  have hfind : kfind identifier
      (st.identifier_to_results ++ [(identifier, [st.next_handle])])
      = some [st.next_handle] := by
    rw [kfind_append_of_none _ _ _ hid]; simp [kfind]
  refine ⟨?_, ?_, ?_, ?_⟩ <;>
    simp [start_mediated_transfer, hnone, initiator_init, hR, handle_state_change,
      hT, spec_state_transition, dispatch_events, on_raiden_event,
      handle_transfersentfailed, dd_getitem, hfind, get_block_number,
      kfind_dict_del]

/-- Witness for C8 at identifier 7 on the empty registry: route lookup
returns zero candidates, the init state change is logged at block 0, and
handle 0 is resolved to failure. -/
theorem no_route_initiation_logged_then_failed_witness :
    env0.state_transition = spec_state_transition
    ∧ kfind 7 st0.identifier_to_results = none
    ∧ ((start_mediated_transfer env0 st0 3 100 55 (some 7)).2.1
        = [.healthCheck 55,
           .stateChangeLogged
             (.actionInitInitiator
               { identifier := 7, amount := 100, token_network_identifier := 3,
                 initiator := st0.address, target := 55,
                 secret := env0.random_secret } [])
             (get_block_number st0),
           .resolveHandle st0.next_handle false]
      ∧ (start_mediated_transfer env0 st0 3 100 55 (some 7)).2.2.1 = none
      ∧ (start_mediated_transfer env0 st0 3 100 55 (some 7)).2.2.2
          = some st0.next_handle
      ∧ kfind 7
          (start_mediated_transfer env0 st0 3 100 55 (some 7)).1.identifier_to_results
        = none) :=
  ⟨rfl, rfl,
   no_route_initiation_logged_then_failed env0 st0 3 100 55 7 rfl
     (fun _ _ _ _ _ _ => rfl) rfl⟩

end Raiden
